import Mathlib

/-!
# Verification of the QPU data sanity checks

Shallow embedding of `src/data_sanity_check.py`, a pandas-based validator for
a daily time-series dataset of QPU block leasing and workload execution.

Modelling conventions:
* A pandas `DataFrame` becomes a record of optional columns (a column is
  `none` when absent from the frame); each present column is a list of cell
  values, one per record.
* Numeric cells are modelled exactly, as rationals (the specification asks
  for exact arithmetic on these checks).
* A `date` cell is a `DVal`: either a raw (unparsed) value, a parsed
  datetime, or an unparseable value; `pd.to_datetime` maps raw values to
  parsed datetimes carrying the same day ordinal and fails on unparseable
  ones.  Day ordinals are integers, so `(max - min).days` is plain integer
  subtraction.
* Python exceptions (`KeyError` on a missing column, a parse failure inside
  `pd.to_datetime`) become `Except.error`; a function that cannot raise is
  total.  Min/max of an empty datetime column raise nothing: they give
  `NaT`, `(NaT - NaT).days` is `nan`, and both range comparisons on `nan`
  are `False`, so the date check returns `True` on a zero-row frame.
* Pandas division of a series by zero yields `NaN`/`inf`, never a fault, and
  `Series.between lo hi` is `False` on those values; `pdDiv` therefore
  returns `none` for a zero divisor and `obetween` is `false` on `none`,
  which is extensionally the pandas behaviour for finite bounds.
* Python functions mutating the frame in place are state passing: each check
  returns its boolean together with the (possibly updated) frame.
-/

namespace DataSanityCheck

/-- A cell of the `date` column: `raw` is an unparsed value denoting day
ordinal `code`, `dt` is a parsed datetime with day ordinal `code`, `bad` is a
value `pd.to_datetime` cannot parse. -/
inductive DVal where
  | raw (code : Int)
  | bad (s : String)
  | dt (code : Int)
deriving DecidableEq

/-- Errors the Python code can raise: a missing-column lookup (`KeyError`)
and a date that does not parse. -/
inductive PdError where
  | keyError (col : String)
  | parseError (s : String)
deriving DecidableEq

/-- The tabular dataset: one optional column per column name occurring in the
source.  A column is `none` exactly when the name is absent from
`df.columns`. -/
structure DataFrame where
  date : Option (List DVal) := none
  new_blocks_atom : Option (List ℚ) := none
  new_blocks_photon : Option (List ℚ) := none
  new_blocks_spin : Option (List ℚ) := none
  workloads_older_blocks : Option (List ℚ) := none
  workloads_new_blocks : Option (List ℚ) := none
  total_daily_cost : Option (List ℚ) := none
  total_workloads : Option (List ℚ) := none
  total_blocks_leased : Option (List ℚ) := none
deriving DecidableEq

/-- Membership test `col in df.columns` from the source. -/
def hasColumn (df : DataFrame) (c : String) : Bool :=
  if c = "date" then df.date.isSome
  else if c = "new_blocks_atom" then df.new_blocks_atom.isSome
  else if c = "new_blocks_photon" then df.new_blocks_photon.isSome
  else if c = "new_blocks_spin" then df.new_blocks_spin.isSome
  else if c = "workloads_older_blocks" then df.workloads_older_blocks.isSome
  else if c = "workloads_new_blocks" then df.workloads_new_blocks.isSome
  else if c = "total_daily_cost" then df.total_daily_cost.isSome
  else if c = "total_workloads" then df.total_workloads.isSome
  else if c = "total_blocks_leased" then df.total_blocks_leased.isSome
  else false

/-- Model of `pd.to_datetime` on one cell: parses raw values, is the identity on
already parsed datetimes, raises on unparseable values. -/
def toDatetime : DVal → Except PdError DVal
  | .raw c => .ok (.dt c)
  | .dt c => .ok (.dt c)
  | .bad s => .error (.parseError s)

/-- Model of `pd.to_datetime` on the whole `date` column. -/
def toDatetimeCol : List DVal → Except PdError (List DVal)
  | [] => .ok []
  | d :: ds =>
    match toDatetime d with
    | .error e => .error e
    | .ok d' =>
      match toDatetimeCol ds with
      | .error e => .error e
      | .ok ds' => .ok (d' :: ds')

/-- Day ordinal of a date cell. -/
def dtCode : DVal → Int
  | .raw c => c
  | .dt c => c
  | .bad _ => 0

/-- Model of `Series.min` on day ordinals. -/
def listMin : List Int → Option Int
  | [] => none
  | x :: xs => some (xs.foldl min x)

/-- Model of `Series.max` on day ordinals. -/
def listMax : List Int → Option Int
  | [] => none
  | x :: xs => some (xs.foldl max x)

/-- Elementwise combination of three aligned columns, as in
`df[a] + df[b] + df[c]` or an elementwise comparison chain. -/
def zipWith3 {α β γ δ : Type} (f : α → β → γ → δ) :
    List α → List β → List γ → List δ
  | x :: xs, y, z =>
    match y, z with
    | y₀ :: ys, z₀ :: zs => f x y₀ z₀ :: zipWith3 f xs ys zs
    | _, _ => []
  | [], _, _ => []

/-- Model of `Series.between lo hi` on one finite cell (inclusive on both ends, the
pandas default). -/
def between (x lo hi : ℚ) : Bool := decide (lo ≤ x ∧ x ≤ hi)

/-- Pandas elementwise division: a zero divisor produces `NaN`/`inf`
(modelled `none`), never a fault. -/
def pdDiv (n d : ℚ) : Option ℚ := if d = 0 then none else some (n / d)

/-- Model of `Series.between` after a pandas division: `NaN` and `inf` compare false
against any finite bounds. -/
def obetween (lo hi : ℚ) : Option ℚ → Bool
  | none => false
  | some x => between x lo hi

/-- The fixed required-column list of the schema check. -/
def expected_columns : List String :=
  ["date",
   "new_blocks_atom",
   "new_blocks_photon",
   "new_blocks_spin",
   "workloads_older_blocks",
   "workloads_new_blocks",
   "total_daily_cost"]

/-- Function `check_required_columns`: passes iff every expected column is present.
Reads only; the frame is returned unchanged. -/
def check_required_columns (df : DataFrame) : Bool × DataFrame :=
  let missing := expected_columns.filter (fun c => ! hasColumn df c)
  if missing.isEmpty then (true, df) else (false, df)

/-- Function `check_date_range_six_months`: parses the `date` column in place (a
`KeyError` if absent, a parse error aborts), then passes iff the day span
between the maximum and minimum date is in `[170, 190]`.  On a zero-row
frame nothing is raised: min/max give `NaT`, `num_days` is `nan`, both
comparisons `nan < 170` and `nan > 190` are `False`, and the check returns
true. -/
def check_date_range_six_months (df : DataFrame) :
    Except PdError (Bool × DataFrame) :=
  match df.date with
  | none => .error (.keyError "date")
  | some dcol =>
    match toDatetimeCol dcol with
    | .error e => .error e
    | .ok parsed =>
      let df1 := { df with date := some parsed }
      let codes := parsed.map dtCode
      match listMin codes, listMax codes with
      | some min_date, some max_date =>
        let num_days := max_date - min_date
        if num_days < 170 ∨ num_days > 190 then .ok (false, df1)
        else .ok (true, df1)
      | _, _ => .ok (true, df1)

/-- Function `check_blocks_leased_range`: stores the per-record sum of the three
category columns as the new column `total_blocks_leased` (a `KeyError` if a
category column is absent), then passes iff every record total is in
`[1000, 10000]`. -/
def check_blocks_leased_range (df : DataFrame) :
    Except PdError (Bool × DataFrame) :=
  match df.new_blocks_atom, df.new_blocks_photon, df.new_blocks_spin with
  | none, _, _ => .error (.keyError "new_blocks_atom")
  | some _, none, _ => .error (.keyError "new_blocks_photon")
  | some _, some _, none => .error (.keyError "new_blocks_spin")
  | some atom, some photon, some spin =>
    let total := zipWith3 (fun x y z => x + y + z) atom photon spin
    let df1 := { df with total_blocks_leased := some total }
    if ! (total.all fun v => between v 1000 10000) then .ok (false, df1)
    else .ok (true, df1)

/-- Function `check_workload_range`: passes iff the `total_workloads` value of every record is in
`[1000000, 50000000]`.  The column is accessed without a presence test, so a
missing column raises `KeyError`.  Reads only. -/
def check_workload_range (df : DataFrame) : Except PdError (Bool × DataFrame) :=
  match df.total_workloads with
  | none => .error (.keyError "total_workloads")
  | some tw =>
    if ! (tw.all fun v => between v 1000000 50000000) then .ok (false, df)
    else .ok (true, df)

/-- Function `check_equal_distribution`: sums each category column, takes the three-way
average, and passes iff no total deviates from the average by more than
`tolerance * average`.  In the source `tolerance` is a keyword argument
defaulting to `0.05`; the orchestrator calls it with that default.  Reads
only. -/
def check_equal_distribution (df : DataFrame) (tolerance : ℚ) :
    Except PdError (Bool × DataFrame) :=
  match df.new_blocks_atom, df.new_blocks_photon, df.new_blocks_spin with
  | none, _, _ => .error (.keyError "new_blocks_atom")
  | some _, none, _ => .error (.keyError "new_blocks_photon")
  | some _, some _, none => .error (.keyError "new_blocks_spin")
  | some atom, some photon, some spin =>
    let total_atom := atom.sum
    let total_photon := photon.sum
    let total_spin := spin.sum
    let avg := (total_atom + total_photon + total_spin) / 3
    let diff_atom := |total_atom - avg|
    let diff_photon := |total_photon - avg|
    let diff_spin := |total_spin - avg|
    if diff_atom > tolerance * avg ∨ diff_photon > tolerance * avg ∨
        diff_spin > tolerance * avg then .ok (false, df)
    else .ok (true, df)

/-- The column list the workload assignment check validates explicitly. -/
def assignment_required_cols : List String :=
  ["total_workloads", "workloads_new_blocks", "workloads_older_blocks"]

/-- The missing-column report printed by `check_workload_assignment`
(lines 95-98 of the source). -/
def check_workload_assignment_missing (df : DataFrame) : List String :=
  assignment_required_cols.filter (fun c => ! hasColumn df c)

/-- Function `check_workload_assignment`: validates the presence of its three columns
first (reporting and returning failure when one is absent), then requires,
per record, that the two partition columns sum to `total_workloads`, that
`workloads_new_blocks / total_workloads` is in `[0.50, 0.60]`, and that
`workloads_older_blocks / total_workloads` is in `[0.40, 0.50]`.  Division by
a zero total yields a non-finite ratio, which fails the `between` test.
Reads only; the function is total, it cannot raise. -/
def check_workload_assignment (df : DataFrame) : Bool × DataFrame :=
  let missing := check_workload_assignment_missing df
  if ! missing.isEmpty then (false, df)
  else
    match df.total_workloads, df.workloads_new_blocks,
        df.workloads_older_blocks with
    | some tw, some nw, some ob =>
      if ! ((zipWith3 (fun n o t => decide (n + o = t)) nw ob tw).all id) then
        (false, df)
      else
        let ratio_today := List.zipWith pdDiv nw tw
        let ratio_older := List.zipWith pdDiv ob tw
        if ! (ratio_today.all (obetween 0.50 0.60)) then (false, df)
        else if ! (ratio_older.all (obetween 0.40 0.50)) then (false, df)
        else (true, df)
    | _, _, _ => (false, df)

/-- Function `run_all_checks` (the CSV load is done by an outside collaborator; the model
starts from the loaded frame): runs the schema, date range, blocks volume,
workload volume and distribution checks in that order, threading the frame
through the two mutating checks, and ANDs the five booleans.  A raised
exception propagates and aborts the remaining checks. -/
def run_all_checks (df : DataFrame) : Except PdError (Bool × DataFrame) :=
  match check_required_columns df with
  | (cols_ok, df) =>
    match check_date_range_six_months df with
    | .error e => .error e
    | .ok (date_ok, df) =>
      match check_blocks_leased_range df with
      | .error e => .error e
      | .ok (blocks_ok, df) =>
        match check_workload_range df with
        | .error e => .error e
        | .ok (workload_ok, df) =>
          match check_equal_distribution df 0.05 with
          | .error e => .error e
          | .ok (distribution_ok, df) =>
            .ok (cols_ok && date_ok && blocks_ok && workload_ok &&
                   distribution_ok, df)

/-! ## Concrete frames used by witnesses and counterexamples -/

/-- A frame for the assignment check with one record:
`total_workloads = 1000`, `workloads_new_blocks = 550`,
`workloads_older_blocks = 450`. -/
def dfA : DataFrame :=
  { total_workloads := some [1000],
    workloads_new_blocks := some [550],
    workloads_older_blocks := some [450] }

/-- A frame for the assignment check whose single record has a zero
`total_workloads`. -/
def dfZ : DataFrame :=
  { total_workloads := some [0],
    workloads_new_blocks := some [0],
    workloads_older_blocks := some [0] }

/-- A frame for the distribution check with equal cumulative totals. -/
def dfDist : DataFrame :=
  { new_blocks_atom := some [1000],
    new_blocks_photon := some [1000],
    new_blocks_spin := some [1000] }

/-- A frame whose two dates are `s` days apart. -/
def dfSpan (s : Int) : DataFrame := { date := some [DVal.raw 0, DVal.raw s] }

/-- A frame for the blocks volume check with one record totalling 1100. -/
def dfB : DataFrame :=
  { new_blocks_atom := some [400],
    new_blocks_photon := some [400],
    new_blocks_spin := some [300] }

/-- A fully populated two-record frame on which every orchestrated check
succeeds. -/
def dfFull : DataFrame :=
  { date := some [DVal.raw 0, DVal.raw 180],
    new_blocks_atom := some [1000, 400],
    new_blocks_photon := some [1000, 400],
    new_blocks_spin := some [1000, 300],
    workloads_older_blocks := some [450000, 500000],
    workloads_new_blocks := some [550000, 500000],
    total_daily_cost := some [10, 10],
    total_workloads := some [1000000, 50000000] }

/-- Frame `dfFull` without the `total_workloads` column. -/
def dfNoTW : DataFrame := { dfFull with total_workloads := none }

/-- Frame `dfFull` after the date range check has parsed its date column. -/
def dfFullDated : DataFrame :=
  { dfFull with date := some [DVal.dt 0, DVal.dt 180] }

/-- Frame `dfFull` after the blocks volume check has stored the derived column. -/
def dfFullBlocks : DataFrame :=
  { dfFull with total_blocks_leased := some [3000, 1100] }

/-- Frame `dfFull` after both mutating checks have run. -/
def dfFullRun : DataFrame :=
  { dfFullDated with total_blocks_leased := some [3000, 1100] }

/-- Frame `dfNoTW` after the date range check has parsed its date column. -/
def dfNoTWDated : DataFrame :=
  { dfNoTW with date := some [DVal.dt 0, DVal.dt 180] }

/-- Frame `dfNoTW` after the blocks volume check has also run. -/
def dfNoTWRun : DataFrame :=
  { dfNoTWDated with total_blocks_leased := some [3000, 1100] }

/-- The empty dataset after the orchestrated run: the date check re-stores
the (empty) parsed column and the blocks check stores an empty derived
column. -/
def dfEmptyRun : DataFrame :=
  { date := some [],
    new_blocks_atom := some [],
    new_blocks_photon := some [],
    new_blocks_spin := some [],
    workloads_older_blocks := some [],
    workloads_new_blocks := some [],
    total_daily_cost := some [],
    total_workloads := some [],
    total_blocks_leased := some [] }

/-- The empty dataset: zero records, every source column present. -/
def dfEmpty : DataFrame :=
  { date := some [],
    new_blocks_atom := some [],
    new_blocks_photon := some [],
    new_blocks_spin := some [],
    workloads_older_blocks := some [],
    workloads_new_blocks := some [],
    total_daily_cost := some [],
    total_workloads := some [] }

/-! ## Generic list lemmas -/

theorem all_iff_getD {α : Type} (p : α → Bool) (d : α) :
    ∀ l : List α, (l.all p = true ↔ ∀ i, i < l.length → p (l.getD i d) = true)
  | [] => by simp
  | x :: xs => by
    rw [List.all_cons, Bool.and_eq_true, all_iff_getD p d xs]
    constructor
    · rintro ⟨hx, hr⟩ i hi
      cases i with
      | zero => simpa using hx
      | succ n =>
        rw [List.getD_cons_succ]
        exact hr n (by simpa using hi)
    · intro h
      refine ⟨by simpa using h 0 (by simp), fun i hi => ?_⟩
      have := h (i + 1) (by simpa using Nat.succ_lt_succ hi)
      simpa [List.getD_cons_succ] using this

theorem zipWith_length_eq {α β γ : Type} (g : α → β → γ) :
    ∀ (a : List α) (b : List β), a.length = b.length →
      (List.zipWith g a b).length = b.length
  | [], [], _ => rfl
  | x :: xs, y :: ys, h => by
    simpa using zipWith_length_eq g xs ys (by simpa using h)
  | [], _ :: _, h => by simp at h
  | _ :: _, [], h => by simp at h

theorem getD_zipWith {α β γ : Type} (g : α → β → γ) (da : α) (db : β) (dc : γ) :
    ∀ (a : List α) (b : List β) (i : Nat), i < a.length → i < b.length →
      (List.zipWith g a b).getD i dc = g (a.getD i da) (b.getD i db)
  | x :: xs, y :: ys, 0, _, _ => rfl
  | x :: xs, y :: ys, i + 1, h1, h2 => by
    simpa [List.getD_cons_succ] using
      getD_zipWith g da db dc xs ys i (by simpa using h1) (by simpa using h2)
  | [], _, i, h1, _ => absurd h1 (by simp)
  | _ :: _, [], i, _, h2 => absurd h2 (by simp)

theorem zipWith3_length_eq {α β γ δ : Type} (f : α → β → γ → δ) :
    ∀ (a : List α) (b : List β) (c : List γ), a.length = c.length →
      b.length = c.length → (zipWith3 f a b c).length = c.length
  | [], [], [], _, _ => rfl
  | x :: xs, y :: ys, z :: zs, h1, h2 => by
    simpa [zipWith3] using
      zipWith3_length_eq f xs ys zs (by simpa using h1) (by simpa using h2)
  | [], _, _ :: _, h1, _ => by simp at h1
  | _ :: _, _, [], h1, _ => by simp at h1
  | _, [], _ :: _, _, h2 => by simp at h2

theorem getD_zipWith3 {α β γ δ : Type} (f : α → β → γ → δ)
    (da : α) (db : β) (dc : γ) (dd : δ) :
    ∀ (a : List α) (b : List β) (c : List γ) (i : Nat),
      i < a.length → i < b.length → i < c.length →
      (zipWith3 f a b c).getD i dd =
        f (a.getD i da) (b.getD i db) (c.getD i dc)
  | x :: xs, y :: ys, z :: zs, 0, _, _, _ => rfl
  | x :: xs, y :: ys, z :: zs, i + 1, h1, h2, h3 => by
    simpa [zipWith3, List.getD_cons_succ] using
      getD_zipWith3 f da db dc dd xs ys zs i
        (by simpa using h1) (by simpa using h2) (by simpa using h3)
  | [], _, _, i, h1, _, _ => absurd h1 (by simp)
  | _ :: _, [], _, i, _, h2, _ => absurd h2 (by simp)
  | _ :: _, _ :: _, [], i, _, _, h3 => absurd h3 (by simp)

theorem zipWith_all_iff {γ : Type} (g : ℚ → ℚ → γ) (p : γ → Bool)
    (a c : List ℚ) (h : a.length = c.length) :
    ((List.zipWith g a c).all p = true ↔
      ∀ i, i < c.length → p (g (a.getD i 0) (c.getD i 0)) = true) := by
  rw [all_iff_getD p (g 0 0), zipWith_length_eq g a c h]
  exact forall_congr' fun i => forall_congr' fun hi => by
    rw [getD_zipWith g 0 0 (g 0 0) a c i (h ▸ hi) hi]

theorem zipWith3_all_iff (f : ℚ → ℚ → ℚ → Bool) (a b c : List ℚ)
    (h1 : a.length = c.length) (h2 : b.length = c.length) :
    ((zipWith3 f a b c).all id = true ↔
      ∀ i, i < c.length → f (a.getD i 0) (b.getD i 0) (c.getD i 0) = true) := by
  rw [all_iff_getD id (f 0 0 0), zipWith3_length_eq f a b c h1 h2]
  exact forall_congr' fun i => forall_congr' fun hi => by
    rw [getD_zipWith3 f 0 0 0 (f 0 0 0) a b c i (h1 ▸ hi) (h2 ▸ hi) hi]
    exact Iff.rfl

/-! ## Small facts about the embedded primitives -/

theorem obetween_pdDiv (lo hi n d : ℚ) (hlo : 0 < lo) :
    obetween lo hi (pdDiv n d) = true ↔ (lo ≤ n / d ∧ n / d ≤ hi) := by
  by_cases hd : d = 0
  · subst hd
    simp only [pdDiv, if_pos rfl, obetween, div_zero]
    constructor
    · intro h
      exact absurd h (by simp)
    · rintro ⟨h, -⟩
      exact absurd (lt_of_lt_of_le hlo h) (lt_irrefl 0)
  · simp only [pdDiv, if_neg hd, obetween, between, decide_eq_true_eq]

theorem toDatetime_ok_dt {d d' : DVal} (h : toDatetime d = .ok d') :
    toDatetime d' = .ok d' := by
  cases d with
  | raw c =>
    simp only [toDatetime, Except.ok.injEq] at h
    subst h
    rfl
  | dt c =>
    simp only [toDatetime, Except.ok.injEq] at h
    subst h
    rfl
  | bad s => simp [toDatetime] at h

theorem toDatetimeCol_idem :
    ∀ {l l' : List DVal}, toDatetimeCol l = .ok l' → toDatetimeCol l' = .ok l'
  | [], l', h => by
    simp only [toDatetimeCol, Except.ok.injEq] at h
    subst h
    rfl
  | d :: ds, l', h => by
    rw [toDatetimeCol] at h
    cases hd : toDatetime d with
    | error e => rw [hd] at h; exact absurd h (by simp)
    | ok d' =>
      rw [hd] at h
      cases hds : toDatetimeCol ds with
      | error e => rw [hds] at h; exact absurd h (by simp)
      | ok ds' =>
        rw [hds] at h
        simp only [Except.ok.injEq] at h
        subst h
        rw [toDatetimeCol, toDatetime_ok_dt hd, toDatetimeCol_idem hds]

/-! ## Characterizations of the individual checks -/

theorem check_required_columns_eq (df : DataFrame) :
    check_required_columns df =
      ((expected_columns.filter fun c => ! hasColumn df c).isEmpty, df) := by
  by_cases h : (expected_columns.filter fun c => ! hasColumn df c).isEmpty <;>
    simp [check_required_columns, h]

theorem check_workload_range_some (df : DataFrame) (tw : List ℚ)
    (h : df.total_workloads = some tw) :
    check_workload_range df =
      .ok (tw.all fun v => between v 1000000 50000000, df) := by
  simp only [check_workload_range, h]
  cases hb : tw.all fun v => between v 1000000 50000000 <;> simp [hb]

theorem check_workload_range_none (df : DataFrame)
    (h : df.total_workloads = none) :
    check_workload_range df = .error (.keyError "total_workloads") := by
  simp [check_workload_range, h]

theorem check_equal_distribution_some (df : DataFrame) (tol : ℚ)
    (atom photon spin : List ℚ)
    (ha : df.new_blocks_atom = some atom)
    (hp : df.new_blocks_photon = some photon)
    (hs : df.new_blocks_spin = some spin) :
    check_equal_distribution df tol =
      .ok (decide
        (|atom.sum - (atom.sum + photon.sum + spin.sum) / 3| ≤
            tol * ((atom.sum + photon.sum + spin.sum) / 3) ∧
         |photon.sum - (atom.sum + photon.sum + spin.sum) / 3| ≤
            tol * ((atom.sum + photon.sum + spin.sum) / 3) ∧
         |spin.sum - (atom.sum + photon.sum + spin.sum) / 3| ≤
            tol * ((atom.sum + photon.sum + spin.sum) / 3)), df) := by
  simp only [check_equal_distribution, ha, hp, hs]
  by_cases hc :
      |atom.sum - (atom.sum + photon.sum + spin.sum) / 3| ≤
          tol * ((atom.sum + photon.sum + spin.sum) / 3) ∧
      |photon.sum - (atom.sum + photon.sum + spin.sum) / 3| ≤
          tol * ((atom.sum + photon.sum + spin.sum) / 3) ∧
      |spin.sum - (atom.sum + photon.sum + spin.sum) / 3| ≤
          tol * ((atom.sum + photon.sum + spin.sum) / 3)
  · rw [if_neg (by push_neg; exact hc), decide_eq_true hc]
  · rw [if_pos (by
      by_contra hcon
      push_neg at hcon
      exact hc ⟨hcon.1, hcon.2.1, hcon.2.2⟩), decide_eq_false hc]

theorem check_blocks_leased_range_some (df : DataFrame)
    (atom photon spin : List ℚ)
    (ha : df.new_blocks_atom = some atom)
    (hp : df.new_blocks_photon = some photon)
    (hs : df.new_blocks_spin = some spin) :
    check_blocks_leased_range df =
      .ok ((zipWith3 (fun x y z => x + y + z) atom photon spin).all
             (fun v => between v 1000 10000),
           { df with total_blocks_leased := some (zipWith3 (fun x y z => x + y + z) atom photon spin) }) := by
  simp only [check_blocks_leased_range, ha, hp, hs]
  cases hb : (zipWith3 (fun x y z => x + y + z) atom photon spin).all
      (fun v => between v 1000 10000) <;> simp [hb]

theorem check_date_range_some (df : DataFrame) (dcol parsed : List DVal)
    (min_date max_date : Int)
    (hd : df.date = some dcol)
    (hp : toDatetimeCol dcol = .ok parsed)
    (hmn : listMin (parsed.map dtCode) = some min_date)
    (hmx : listMax (parsed.map dtCode) = some max_date) :
    check_date_range_six_months df =
      .ok (decide (170 ≤ max_date - min_date ∧ max_date - min_date ≤ 190),
           { df with date := some parsed }) := by
  simp only [check_date_range_six_months, hd, hp, hmn, hmx]
  by_cases hc : 170 ≤ max_date - min_date ∧ max_date - min_date ≤ 190
  · rw [if_neg (by omega), decide_eq_true hc]
  · rw [if_pos (by omega), decide_eq_false hc]

theorem hasColumn_total_workloads (df : DataFrame) :
    hasColumn df "total_workloads" = df.total_workloads.isSome := rfl

theorem hasColumn_workloads_new (df : DataFrame) :
    hasColumn df "workloads_new_blocks" = df.workloads_new_blocks.isSome := rfl

theorem hasColumn_workloads_older (df : DataFrame) :
    hasColumn df "workloads_older_blocks" =
      df.workloads_older_blocks.isSome := rfl

theorem assignment_missing_nil (df : DataFrame)
    (ht : df.total_workloads.isSome = true)
    (hn : df.workloads_new_blocks.isSome = true)
    (ho : df.workloads_older_blocks.isSome = true) :
    check_workload_assignment_missing df = [] := by
  simp [check_workload_assignment_missing, assignment_required_cols,
    List.filter, hasColumn_total_workloads, hasColumn_workloads_new,
    hasColumn_workloads_older, ht, hn, ho]

theorem check_workload_assignment_some (df : DataFrame) (tw nw ob : List ℚ)
    (ht : df.total_workloads = some tw)
    (hn : df.workloads_new_blocks = some nw)
    (ho : df.workloads_older_blocks = some ob) :
    check_workload_assignment df =
      ((zipWith3 (fun n o t => decide (n + o = t)) nw ob tw).all id &&
         (List.zipWith pdDiv nw tw).all (obetween 0.50 0.60) &&
         (List.zipWith pdDiv ob tw).all (obetween 0.40 0.50), df) := by
  have hmiss : check_workload_assignment_missing df = [] :=
    assignment_missing_nil df (by rw [ht]; rfl) (by rw [hn]; rfl)
      (by rw [ho]; rfl)
  simp only [check_workload_assignment, hmiss, ht, hn, ho]
  cases hA : (zipWith3 (fun n o t => decide (n + o = t)) nw ob tw).all id <;>
    cases hB : (List.zipWith pdDiv nw tw).all (obetween 0.50 0.60) <;>
      cases hC : (List.zipWith pdDiv ob tw).all (obetween 0.40 0.50) <;>
        simp [hA, hB, hC]

theorem check_workload_assignment_missing_case (df : DataFrame)
    (h : (check_workload_assignment_missing df).isEmpty = false) :
    check_workload_assignment df = (false, df) := by
  simp [check_workload_assignment, h]

theorem assignment_missing_empty_iff (df : DataFrame) :
    (check_workload_assignment_missing df).isEmpty = true ↔
      (df.total_workloads.isSome = true ∧
       df.workloads_new_blocks.isSome = true ∧
       df.workloads_older_blocks.isSome = true) := by
  cases h1 : df.total_workloads.isSome <;>
    cases h2 : df.workloads_new_blocks.isSome <;>
      cases h3 : df.workloads_older_blocks.isSome <;>
        simp [check_workload_assignment_missing, assignment_required_cols,
          List.filter, hasColumn_total_workloads, hasColumn_workloads_new,
          hasColumn_workloads_older, h1, h2, h3]

theorem check_workload_assignment_snd (df : DataFrame) :
    (check_workload_assignment df).2 = df := by
  cases hm : (check_workload_assignment_missing df).isEmpty with
  | false => rw [check_workload_assignment_missing_case df hm]
  | true =>
    obtain ⟨ht, hn, ho⟩ := (assignment_missing_empty_iff df).mp hm
    obtain ⟨tw, htw⟩ := Option.isSome_iff_exists.mp ht
    obtain ⟨nw, hnw⟩ := Option.isSome_iff_exists.mp hn
    obtain ⟨ob, hob⟩ := Option.isSome_iff_exists.mp ho
    rw [check_workload_assignment_some df tw nw ob htw hnw hob]

theorem assignment_fst_true_iff (df : DataFrame) (tw nw ob : List ℚ)
    (ht : df.total_workloads = some tw)
    (hn : df.workloads_new_blocks = some nw)
    (ho : df.workloads_older_blocks = some ob)
    (hln : nw.length = tw.length) (hlo : ob.length = tw.length) :
    ((check_workload_assignment df).1 = true ↔
      ∀ i, i < tw.length →
        (nw.getD i 0 + ob.getD i 0 = tw.getD i 0 ∧
         (0.50 : ℚ) ≤ nw.getD i 0 / tw.getD i 0 ∧
         nw.getD i 0 / tw.getD i 0 ≤ 0.60 ∧
         (0.40 : ℚ) ≤ ob.getD i 0 / tw.getD i 0 ∧
         ob.getD i 0 / tw.getD i 0 ≤ 0.50)) := by
  rw [check_workload_assignment_some df tw nw ob ht hn ho]
  simp only [Bool.and_eq_true]
  rw [zipWith3_all_iff (fun n o t => decide (n + o = t)) nw ob tw hln hlo,
    zipWith_all_iff pdDiv (obetween 0.50 0.60) nw tw hln,
    zipWith_all_iff pdDiv (obetween 0.40 0.50) ob tw hlo]
  constructor
  · rintro ⟨⟨hA, hB⟩, hC⟩ i hi
    have h1 := of_decide_eq_true (hA i hi)
    have h2 := (obetween_pdDiv 0.50 0.60 (nw.getD i 0) (tw.getD i 0)
      (by norm_num)).mp (hB i hi)
    have h3 := (obetween_pdDiv 0.40 0.50 (ob.getD i 0) (tw.getD i 0)
      (by norm_num)).mp (hC i hi)
    exact ⟨h1, h2.1, h2.2, h3.1, h3.2⟩
  · intro h
    refine ⟨⟨fun i hi => decide_eq_true (h i hi).1, fun i hi => ?_⟩,
      fun i hi => ?_⟩
    · exact (obetween_pdDiv 0.50 0.60 (nw.getD i 0) (tw.getD i 0)
        (by norm_num)).mpr ⟨(h i hi).2.1, (h i hi).2.2.1⟩
    · exact (obetween_pdDiv 0.40 0.50 (ob.getD i 0) (tw.getD i 0)
        (by norm_num)).mpr ⟨(h i hi).2.2.2.1, (h i hi).2.2.2.2⟩

/-! ## The claims -/

/-- Claim C3: with the three assignment columns present, the workload
assignment check returns true iff every record satisfies the exact sum
constraint and both ratio constraints; one violation anywhere makes it
return false. -/
theorem claim_C3 (df : DataFrame) (tw nw ob : List ℚ)
    (ht : df.total_workloads = some tw)
    (hn : df.workloads_new_blocks = some nw)
    (ho : df.workloads_older_blocks = some ob)
    (hln : nw.length = tw.length) (hlo : ob.length = tw.length) :
    (check_workload_assignment df = (true, df) ↔
      ∀ i, i < tw.length →
        (nw.getD i 0 + ob.getD i 0 = tw.getD i 0 ∧
         (0.50 : ℚ) ≤ nw.getD i 0 / tw.getD i 0 ∧
         nw.getD i 0 / tw.getD i 0 ≤ 0.60 ∧
         (0.40 : ℚ) ≤ ob.getD i 0 / tw.getD i 0 ∧
         ob.getD i 0 / tw.getD i 0 ≤ 0.50)) := by
  rw [Prod.ext_iff, check_workload_assignment_snd df]
  simp only [and_true]
  exact assignment_fst_true_iff df tw nw ob ht hn ho hln hlo

/-- Witness for C3 at a concrete passing frame (ratios 0.55 and 0.45). -/
theorem claim_C3_witness : check_workload_assignment dfA = (true, dfA) := by
  refine (claim_C3 dfA [1000] [550] [450] rfl rfl rfl rfl rfl).mpr ?_
  intro i hi
  have hi0 : i = 0 := by
    simpa using Nat.lt_one_iff.mp (by simpa using hi)
  subst hi0
  simp only [List.getD_cons_zero]
  norm_num

/-- Claim C4: a record with `total_workloads = 0` makes the workload
assignment check fail for the run; the check is a total function of the
frame (pandas division by zero yields a non-finite ratio, not an arithmetic
fault), so no exception can be raised. -/
theorem claim_C4 (df : DataFrame) (tw nw ob : List ℚ)
    (ht : df.total_workloads = some tw)
    (hn : df.workloads_new_blocks = some nw)
    (ho : df.workloads_older_blocks = some ob)
    (hln : nw.length = tw.length) (hlo : ob.length = tw.length)
    (i : Nat) (hi : i < tw.length) (hz : tw.getD i 0 = 0) :
    (check_workload_assignment df).1 = false := by
  cases hb : (check_workload_assignment df).1 with
  | false => rfl
  | true =>
    have h := (assignment_fst_true_iff df tw nw ob ht hn ho hln hlo).mp hb i hi
    have h2 := h.2.1
    rw [hz, div_zero] at h2
    norm_num at h2

/-- Witness for C4 at a concrete frame whose record has a zero total. -/
theorem claim_C4_witness : (check_workload_assignment dfZ).1 = false :=
  claim_C4 dfZ [0] [0] [0] rfl rfl rfl rfl rfl 0 (by simp) rfl

/-- Claim C5: with the three category columns present, the distribution
check returns true iff each cumulative total deviates from the three-way
average by at most `tolerance * average`; all-zero totals pass, and no
division by a data value occurs anywhere in the check (the only division is
by the constant 3), so a zero average cannot fault. -/
theorem claim_C5 (df : DataFrame) (tol : ℚ) (atom photon spin : List ℚ)
    (ha : df.new_blocks_atom = some atom)
    (hp : df.new_blocks_photon = some photon)
    (hs : df.new_blocks_spin = some spin) :
    ((check_equal_distribution df tol = .ok (true, df) ↔
      (|atom.sum - (atom.sum + photon.sum + spin.sum) / 3| ≤
          tol * ((atom.sum + photon.sum + spin.sum) / 3) ∧
       |photon.sum - (atom.sum + photon.sum + spin.sum) / 3| ≤
          tol * ((atom.sum + photon.sum + spin.sum) / 3) ∧
       |spin.sum - (atom.sum + photon.sum + spin.sum) / 3| ≤
          tol * ((atom.sum + photon.sum + spin.sum) / 3))) ∧
     ((atom.sum = 0 ∧ photon.sum = 0 ∧ spin.sum = 0) →
       check_equal_distribution df tol = .ok (true, df))) := by
  have hch := check_equal_distribution_some df tol atom photon spin ha hp hs
  constructor
  · rw [hch]
    simp [decide_eq_true_eq]
  · rintro ⟨h1, h2, h3⟩
    rw [hch, h1, h2, h3]
    norm_num

/-- Witness for C5: equal totals 1000/1000/1000 pass at tolerance 0.05. -/
theorem claim_C5_witness :
    check_equal_distribution dfDist 0.05 = .ok (true, dfDist) := by
  refine ((claim_C5 dfDist 0.05 [1000] [1000] [1000] rfl rfl rfl).1).mpr ?_
  simp only [List.sum_cons, List.sum_nil]
  norm_num

/-- Claim C6: when the date column parses, the date range check replaces it
with the parsed dates and returns true iff the day span between the maximum
and the minimum date lies in the inclusive interval `[170, 190]`. -/
theorem claim_C6 (df : DataFrame) (dcol parsed : List DVal)
    (min_date max_date : Int)
    (hd : df.date = some dcol)
    (hp : toDatetimeCol dcol = .ok parsed)
    (hmn : listMin (parsed.map dtCode) = some min_date)
    (hmx : listMax (parsed.map dtCode) = some max_date) :
    check_date_range_six_months df =
      .ok (decide (170 ≤ max_date - min_date ∧ max_date - min_date ≤ 190),
           { df with date := some parsed }) :=
  check_date_range_some df dcol parsed min_date max_date hd hp hmn hmx

/-- Witness for C6: spans of 170, 180 and 190 days pass; 169 and 191 fail. -/
theorem claim_C6_witness :
    check_date_range_six_months (dfSpan 180) =
      .ok (true, { dfSpan 180 with date := some [DVal.dt 0, DVal.dt 180] }) ∧
    check_date_range_six_months (dfSpan 170) =
      .ok (true, { dfSpan 170 with date := some [DVal.dt 0, DVal.dt 170] }) ∧
    check_date_range_six_months (dfSpan 190) =
      .ok (true, { dfSpan 190 with date := some [DVal.dt 0, DVal.dt 190] }) ∧
    check_date_range_six_months (dfSpan 169) =
      .ok (false, { dfSpan 169 with date := some [DVal.dt 0, DVal.dt 169] }) ∧
    check_date_range_six_months (dfSpan 191) =
      .ok (false, { dfSpan 191 with date := some [DVal.dt 0, DVal.dt 191] }) := by
  refine ⟨?_, rfl, rfl, rfl, rfl⟩
  have h := claim_C6 (dfSpan 180) [DVal.raw 0, DVal.raw 180]
    [DVal.dt 0, DVal.dt 180] 0 180 rfl rfl rfl rfl
  simpa using h

/-- Claim C7: with the three category columns present, the blocks volume
check stores a new column `total_blocks_leased` holding the per-record sum
of the three categories and returns true iff every record total lies in the
closed interval `[1000, 10000]`. -/
theorem claim_C7 (df : DataFrame) (atom photon spin : List ℚ)
    (ha : df.new_blocks_atom = some atom)
    (hp : df.new_blocks_photon = some photon)
    (hs : df.new_blocks_spin = some spin)
    (hlp : photon.length = atom.length) (hls : spin.length = atom.length) :
    ∃ b total,
      check_blocks_leased_range df =
        .ok (b, { df with total_blocks_leased := some total }) ∧
      total.length = atom.length ∧
      (∀ i, i < atom.length →
        total.getD i 0 = atom.getD i 0 + photon.getD i 0 + spin.getD i 0) ∧
      (b = true ↔
        ∀ i, i < atom.length →
          (1000 ≤ total.getD i 0 ∧ total.getD i 0 ≤ 10000)) := by
  refine ⟨_, zipWith3 (fun x y z => x + y + z) atom photon spin,
    check_blocks_leased_range_some df atom photon spin ha hp hs, ?_, ?_, ?_⟩
  · rw [zipWith3_length_eq _ atom photon spin (by omega) (by omega), hls]
  · intro i hi
    exact getD_zipWith3 (fun x y z => x + y + z) 0 0 0 0 atom photon spin i
      hi (by omega) (by omega)
  · rw [all_iff_getD (fun v => between v 1000 10000) 0,
      zipWith3_length_eq _ atom photon spin (by omega) (by omega), hls]
    exact forall_congr' fun i => forall_congr' fun hi => by
      simp [between, decide_eq_true_eq]

/-- Witness for C7: a record summing to 1100 passes, and the derived column
is stored; the instantiated characterization is obtained from the theorem. -/
theorem claim_C7_witness :
    (∃ b total,
      check_blocks_leased_range dfB =
        .ok (b, { dfB with total_blocks_leased := some total }) ∧
      total.length = 1 ∧
      (∀ i, i < 1 →
        total.getD i 0 = ([(400 : ℚ)]).getD i 0 + ([(400 : ℚ)]).getD i 0 +
          ([(300 : ℚ)]).getD i 0) ∧
      (b = true ↔
        ∀ i, i < 1 → (1000 ≤ total.getD i 0 ∧ total.getD i 0 ≤ 10000))) ∧
    check_blocks_leased_range dfB =
      .ok (true, { dfB with total_blocks_leased := some [1100] }) := by
  constructor
  · exact claim_C7 dfB [400] [400] [300] rfl rfl rfl rfl rfl
  · norm_num [check_blocks_leased_range, dfB, zipWith3, between]

/-! ## Evaluations of the checks on the concrete frames -/

theorem listMin_none_iff {l : List Int} : listMin l = none ↔ l = [] := by
  cases l <;> simp [listMin]

theorem listMax_none_iff {l : List Int} : listMax l = none ↔ l = [] := by
  cases l <;> simp [listMax]

theorem dfFull_req : check_required_columns dfFull = (true, dfFull) := by
  rw [check_required_columns_eq]
  simp +decide [expected_columns, hasColumn, dfFull]

theorem dfFull_date :
    check_date_range_six_months dfFull = .ok (true, dfFullDated) := by
  have h := check_date_range_some dfFull [DVal.raw 0, DVal.raw 180]
    [DVal.dt 0, DVal.dt 180] 0 180 rfl rfl rfl rfl
  simpa [dfFullDated] using h

theorem dfFull_blocks :
    check_blocks_leased_range dfFull = .ok (true, dfFullBlocks) := by
  rw [check_blocks_leased_range_some dfFull [1000, 400] [1000, 400]
    [1000, 300] rfl rfl rfl]
  norm_num [zipWith3, between, dfFullBlocks, dfFull]

theorem dfFullDated_blocks :
    check_blocks_leased_range dfFullDated = .ok (true, dfFullRun) := by
  rw [check_blocks_leased_range_some dfFullDated [1000, 400] [1000, 400]
    [1000, 300] rfl rfl rfl]
  norm_num [zipWith3, between, dfFullRun, dfFullDated, dfFull]

theorem dfFull_workload :
    check_workload_range dfFull = .ok (true, dfFull) := by
  rw [check_workload_range_some dfFull [1000000, 50000000] rfl]
  norm_num [between]

theorem dfFullRun_workload :
    check_workload_range dfFullRun = .ok (true, dfFullRun) := by
  rw [check_workload_range_some dfFullRun [1000000, 50000000] rfl]
  norm_num [between]

theorem dfFull_dist :
    check_equal_distribution dfFull 0.05 = .ok (true, dfFull) := by
  rw [check_equal_distribution_some dfFull 0.05 [1000, 400] [1000, 400]
    [1000, 300] rfl rfl rfl]
  norm_num [List.sum_cons, List.sum_nil, abs_le]

theorem dfFullRun_dist :
    check_equal_distribution dfFullRun 0.05 = .ok (true, dfFullRun) := by
  rw [check_equal_distribution_some dfFullRun 0.05 [1000, 400] [1000, 400]
    [1000, 300] rfl rfl rfl]
  norm_num [List.sum_cons, List.sum_nil, abs_le]

theorem dfFull_assignment :
    check_workload_assignment dfFull = (false, dfFull) := by
  rw [check_workload_assignment_some dfFull [1000000, 50000000]
    [550000, 500000] [450000, 500000] rfl rfl rfl]
  norm_num [zipWith3]

theorem dfNoTW_req : check_required_columns dfNoTW = (true, dfNoTW) := by
  rw [check_required_columns_eq]
  simp +decide [expected_columns, hasColumn, dfNoTW, dfFull]

theorem dfNoTW_date :
    check_date_range_six_months dfNoTW = .ok (true, dfNoTWDated) := by
  have h := check_date_range_some dfNoTW [DVal.raw 0, DVal.raw 180]
    [DVal.dt 0, DVal.dt 180] 0 180 rfl rfl rfl rfl
  simpa [dfNoTWDated] using h

theorem dfNoTWDated_blocks :
    check_blocks_leased_range dfNoTWDated = .ok (true, dfNoTWRun) := by
  rw [check_blocks_leased_range_some dfNoTWDated [1000, 400] [1000, 400]
    [1000, 300] rfl rfl rfl]
  norm_num [zipWith3, between, dfNoTWRun, dfNoTWDated, dfNoTW, dfFull]

/-- The orchestrator propagates a `KeyError` raised by the workload volume
check and aborts without running the distribution check. -/
theorem run_all_checks_aborts (df df1 df2 df3 : DataFrame) (b1 b2 b3 : Bool)
    (e : PdError)
    (h1 : check_required_columns df = (b1, df1))
    (h2 : check_date_range_six_months df1 = .ok (b2, df2))
    (h3 : check_blocks_leased_range df2 = .ok (b3, df3))
    (h4 : check_workload_range df3 = .error e) :
    run_all_checks df = .error e := by
  simp only [run_all_checks, h1, h2, h3, h4]

/-- Claim C1 (amended): on a dataset lacking `total_workloads`, the workload
assignment check reports the missing column and returns false without
raising, but the workload volume check accesses the column without a
presence test and raises `KeyError` instead of returning false. -/
theorem claim_C1 (df : DataFrame) (h : df.total_workloads = none) :
    check_workload_range df = .error (.keyError "total_workloads") ∧
    check_workload_assignment df = (false, df) ∧
    "total_workloads" ∈ check_workload_assignment_missing df := by
  have hmem : "total_workloads" ∈ check_workload_assignment_missing df := by
    simp +decide [check_workload_assignment_missing, List.mem_filter,
      assignment_required_cols, hasColumn_total_workloads, h]
  refine ⟨check_workload_range_none df h, ?_, hmem⟩
  refine check_workload_assignment_missing_case df ?_
  cases hm : check_workload_assignment_missing df with
  | nil => rw [hm] at hmem; exact absurd hmem (by simp)
  | cons a l => rfl

/-- Counterexample to C1 as stated: on a concrete frame lacking
`total_workloads`, the workload volume check raises `KeyError`; its result
is an error, not the boolean false the claim asserts. -/
theorem claim_C1_counterexample :
    check_workload_range dfNoTW = .error (.keyError "total_workloads") ∧
    (check_workload_range dfNoTW).toOption = none := ⟨rfl, rfl⟩

/-- Witness for C1 (amended) at the concrete frame `dfNoTW`. -/
theorem claim_C1_witness :
    check_workload_range dfNoTW = .error (.keyError "total_workloads") ∧
    check_workload_assignment dfNoTW = (false, dfNoTW) ∧
    "total_workloads" ∈ check_workload_assignment_missing dfNoTW :=
  claim_C1 dfNoTW rfl

/-- Claim C2 (amended): when every stage completes without a raised
exception, the orchestrator runs exactly the five checks schema, date
range, blocks volume, workload volume, distribution equality, in that fixed
order (the workload assignment check is not invoked); each of the five runs
regardless of the boolean the earlier checks returned, and the overall
result is the logical AND of the five booleans. -/
theorem claim_C2 (df df1 df2 df3 df4 df5 : DataFrame) (b1 b2 b3 b4 b5 : Bool)
    (h1 : check_required_columns df = (b1, df1))
    (h2 : check_date_range_six_months df1 = .ok (b2, df2))
    (h3 : check_blocks_leased_range df2 = .ok (b3, df3))
    (h4 : check_workload_range df3 = .ok (b4, df4))
    (h5 : check_equal_distribution df4 0.05 = .ok (b5, df5)) :
    run_all_checks df = .ok (b1 && b2 && b3 && b4 && b5, df5) := by
  simp only [run_all_checks, h1, h2, h3, h4, h5]

/-- Counterexample to C2 as stated: on a concrete frame lacking
`total_workloads` the orchestrator aborts at the fourth check with a
`KeyError`; the distribution check never runs and no AND of five booleans
is produced. -/
theorem claim_C2_counterexample :
    run_all_checks dfNoTW = .error (.keyError "total_workloads") ∧
    (run_all_checks dfNoTW).toOption = none := by
  have h := run_all_checks_aborts dfNoTW dfNoTW dfNoTWDated dfNoTWRun
    true true true (.keyError "total_workloads") dfNoTW_req dfNoTW_date
    dfNoTWDated_blocks (check_workload_range_none dfNoTWRun rfl)
  exact ⟨h, by rw [h]; rfl⟩

/-- Witness for C2 (amended): on `dfFull` all five checks run and the
overall result is the AND of their booleans; on the zero-row frame
`dfEmpty` nothing raises either (min/max of the empty date column yield
`NaT`, the `nan` day span fails both comparisons, so the date check returns
true), all five checks run, and the AND is produced as well. -/
theorem claim_C2_witness :
    run_all_checks dfFull = .ok (true, dfFullRun) ∧
    run_all_checks dfEmpty = .ok (true, dfEmptyRun) := by
  constructor
  · have h := claim_C2 dfFull dfFull dfFullDated dfFullRun dfFullRun
      dfFullRun true true true true true dfFull_req dfFull_date
      dfFullDated_blocks dfFullRun_workload dfFullRun_dist
    simpa using h
  · have hq1 : check_required_columns dfEmpty = (true, dfEmpty) := by
      rw [check_required_columns_eq]
      simp +decide [expected_columns, hasColumn, dfEmpty]
    have hq5 : check_equal_distribution dfEmptyRun 0.05 =
        .ok (true, dfEmptyRun) := by
      rw [check_equal_distribution_some dfEmptyRun 0.05 [] [] [] rfl rfl rfl]
      norm_num [List.sum_nil]
    have h := claim_C2 dfEmpty dfEmpty dfEmpty dfEmptyRun dfEmptyRun
      dfEmptyRun true true true true true hq1 rfl rfl rfl hq5
    simpa using h

/-- Claim C8: only the date range check and the blocks volume check change
the frame, the former by replacing the `date` column with its parsed dates
and the latter by setting the `total_blocks_leased` column, each leaving
every other column untouched; the schema, workload volume, distribution and
workload assignment checks return the frame unchanged. -/
theorem claim_C8 (df : DataFrame) :
    (check_required_columns df).2 = df ∧
    (check_workload_assignment df).2 = df ∧
    (∀ b df', check_workload_range df = .ok (b, df') → df' = df) ∧
    (∀ tol b df', check_equal_distribution df tol = .ok (b, df') →
      df' = df) ∧
    (∀ dcol b df', df.date = some dcol →
      check_date_range_six_months df = .ok (b, df') →
      ∃ parsed, toDatetimeCol dcol = .ok parsed ∧
        df' = { df with date := some parsed }) ∧
    (∀ b df', check_blocks_leased_range df = .ok (b, df') →
      ∃ total, df' = { df with total_blocks_leased := some total }) := by
  refine ⟨?_, check_workload_assignment_snd df, ?_, ?_, ?_, ?_⟩
  · rw [check_required_columns_eq]
  · intro b df' h
    rcases htw : df.total_workloads with _ | tw
    · rw [check_workload_range_none df htw] at h
      exact absurd h (by simp)
    · rw [check_workload_range_some df tw htw] at h
      simp only [Except.ok.injEq, Prod.mk.injEq] at h
      exact h.2.symm
  · intro tol b df' h
    rcases ha : df.new_blocks_atom with _ | atom
    · simp [check_equal_distribution, ha] at h
    · rcases hp : df.new_blocks_photon with _ | photon
      · simp [check_equal_distribution, ha, hp] at h
      · rcases hs : df.new_blocks_spin with _ | spin
        · simp [check_equal_distribution, ha, hp, hs] at h
        · rw [check_equal_distribution_some df tol atom photon spin
            ha hp hs] at h
          simp only [Except.ok.injEq, Prod.mk.injEq] at h
          exact h.2.symm
  · intro dcol b df' hd h
    rcases hp : toDatetimeCol dcol with e | parsed
    · simp [check_date_range_six_months, hd, hp] at h
    · refine ⟨parsed, rfl, ?_⟩
      rcases hmn : listMin (parsed.map dtCode) with _ | mn
      · have hnil : parsed.map dtCode = [] := listMin_none_iff.mp hmn
        have hmx : listMax (parsed.map dtCode) = none :=
          listMax_none_iff.mpr hnil
        simp only [check_date_range_six_months, hd, hp, hmn, hmx] at h
        simp only [Except.ok.injEq, Prod.mk.injEq] at h
        exact h.2.symm
      · rcases hmx : listMax (parsed.map dtCode) with _ | mx
        · have hnil : parsed.map dtCode = [] := listMax_none_iff.mp hmx
          rw [listMin_none_iff.mpr hnil] at hmn
          exact absurd hmn (by simp)
        · rw [check_date_range_some df dcol parsed mn mx hd hp hmn hmx] at h
          simp only [Except.ok.injEq, Prod.mk.injEq] at h
          exact h.2.symm
  · intro b df' h
    rcases ha : df.new_blocks_atom with _ | atom
    · simp [check_blocks_leased_range, ha] at h
    · rcases hp : df.new_blocks_photon with _ | photon
      · simp [check_blocks_leased_range, ha, hp] at h
      · rcases hs : df.new_blocks_spin with _ | spin
        · simp [check_blocks_leased_range, ha, hp, hs] at h
        · rw [check_blocks_leased_range_some df atom photon spin
            ha hp hs] at h
          simp only [Except.ok.injEq, Prod.mk.injEq] at h
          rw [← ha, ← hp, ← hs]
          exact ⟨zipWith3 (fun x y z => x + y + z) atom photon spin,
            h.2.symm⟩

/-- Witness for C8 at `dfFull`: the two mutating checks produce exactly the
expected column updates and the four read-only checks return the frame
unchanged. -/
theorem claim_C8_witness :
    check_workload_range dfFull = .ok (true, dfFull) ∧
    check_equal_distribution dfFull 0.05 = .ok (true, dfFull) ∧
    check_date_range_six_months dfFull = .ok (true, dfFullDated) ∧
    check_blocks_leased_range dfFull = .ok (true, dfFullBlocks) ∧
    (check_required_columns dfFull).2 = dfFull ∧
    (check_workload_assignment dfFull).2 = dfFull ∧
    (∃ parsed, toDatetimeCol [DVal.raw 0, DVal.raw 180] = .ok parsed ∧
      dfFullDated = { dfFull with date := some parsed }) ∧
    (∃ total,
      dfFullBlocks = { dfFull with total_blocks_leased := some total }) := by
  refine ⟨dfFull_workload, dfFull_dist, dfFull_date, dfFull_blocks,
    (claim_C8 dfFull).1, (claim_C8 dfFull).2.1, ?_, ?_⟩
  · exact (claim_C8 dfFull).2.2.2.2.1 [DVal.raw 0, DVal.raw 180] true
      dfFullDated rfl dfFull_date
  · exact (claim_C8 dfFull).2.2.2.2.2 true dfFullBlocks dfFull_blocks

/-- Claim C9: every check is idempotent on its boolean: when a check
completes on a frame, running the same check again on the frame it returned
completes with the same boolean and the same frame; this holds for all six
checks, including the two that mutate the frame on their first run. -/
theorem claim_C9 (df : DataFrame) :
    (∀ b df', check_required_columns df = (b, df') →
      check_required_columns df' = (b, df')) ∧
    (∀ b df', check_workload_assignment df = (b, df') →
      check_workload_assignment df' = (b, df')) ∧
    (∀ b df', check_workload_range df = .ok (b, df') →
      check_workload_range df' = .ok (b, df')) ∧
    (∀ tol b df', check_equal_distribution df tol = .ok (b, df') →
      check_equal_distribution df' tol = .ok (b, df')) ∧
    (∀ b df', check_date_range_six_months df = .ok (b, df') →
      check_date_range_six_months df' = .ok (b, df')) ∧
    (∀ b df', check_blocks_leased_range df = .ok (b, df') →
      check_blocks_leased_range df' = .ok (b, df')) := by
  refine ⟨?_, ?_, ?_, ?_, ?_, ?_⟩
  · intro b df' h
    rw [check_required_columns_eq] at h
    simp only [Prod.mk.injEq] at h
    obtain ⟨hb, hdf⟩ := h
    subst hb hdf
    exact check_required_columns_eq df
  · intro b df' h
    have hdf : df' = df :=
      (congrArg Prod.snd h).symm.trans (check_workload_assignment_snd df)
    subst hdf
    exact h
  · intro b df' h
    rcases htw : df.total_workloads with _ | tw
    · rw [check_workload_range_none df htw] at h
      exact absurd h (by simp)
    · rw [check_workload_range_some df tw htw] at h
      simp only [Except.ok.injEq, Prod.mk.injEq] at h
      obtain ⟨hb, hdf⟩ := h
      subst hb hdf
      exact check_workload_range_some df tw htw
  · intro tol b df' h
    rcases ha : df.new_blocks_atom with _ | atom
    · simp [check_equal_distribution, ha] at h
    · rcases hp : df.new_blocks_photon with _ | photon
      · simp [check_equal_distribution, ha, hp] at h
      · rcases hs : df.new_blocks_spin with _ | spin
        · simp [check_equal_distribution, ha, hp, hs] at h
        · rw [check_equal_distribution_some df tol atom photon spin
            ha hp hs] at h
          simp only [Except.ok.injEq, Prod.mk.injEq] at h
          obtain ⟨hb, hdf⟩ := h
          subst hb hdf
          exact check_equal_distribution_some df tol atom photon spin
            ha hp hs
  · intro b df' h
    rcases hd : df.date with _ | dcol
    · simp [check_date_range_six_months, hd] at h
    · rcases hp : toDatetimeCol dcol with e | parsed
      · simp [check_date_range_six_months, hd, hp] at h
      · rcases hmn : listMin (parsed.map dtCode) with _ | mn
        · have hnil : parsed.map dtCode = [] := listMin_none_iff.mp hmn
          have hmx : listMax (parsed.map dtCode) = none :=
            listMax_none_iff.mpr hnil
          simp only [check_date_range_six_months, hd, hp, hmn, hmx] at h
          simp only [Except.ok.injEq, Prod.mk.injEq] at h
          obtain ⟨hb, hdf⟩ := h
          subst hb hdf
          simp only [check_date_range_six_months, toDatetimeCol_idem hp,
            hmn, hmx]
        · rcases hmx : listMax (parsed.map dtCode) with _ | mx
          · have hnil : parsed.map dtCode = [] := listMax_none_iff.mp hmx
            rw [listMin_none_iff.mpr hnil] at hmn
            exact absurd hmn (by simp)
          · rw [check_date_range_some df dcol parsed mn mx hd hp hmn hmx]
              at h
            simp only [Except.ok.injEq, Prod.mk.injEq] at h
            obtain ⟨hb, hdf⟩ := h
            subst hb hdf
            exact check_date_range_some _ parsed parsed mn mx rfl
              (toDatetimeCol_idem hp) hmn hmx
  · intro b df' h
    rcases ha : df.new_blocks_atom with _ | atom
    · simp [check_blocks_leased_range, ha] at h
    · rcases hp : df.new_blocks_photon with _ | photon
      · simp [check_blocks_leased_range, ha, hp] at h
      · rcases hs : df.new_blocks_spin with _ | spin
        · simp [check_blocks_leased_range, ha, hp, hs] at h
        · rw [check_blocks_leased_range_some df atom photon spin
            ha hp hs] at h
          simp only [Except.ok.injEq, Prod.mk.injEq] at h
          obtain ⟨hb, hdf⟩ := h
          subst hb hdf
          exact check_blocks_leased_range_some _ atom photon spin ha hp hs

/-- Witness for C9: on concrete frames, a second run of each of the six
checks (on the frame the first run returned) reproduces the first boolean. -/
theorem claim_C9_witness :
    check_required_columns dfFull = (true, dfFull) ∧
    check_workload_assignment dfFull = (false, dfFull) ∧
    check_workload_range dfFull = .ok (true, dfFull) ∧
    check_equal_distribution dfFull 0.05 = .ok (true, dfFull) ∧
    check_date_range_six_months dfFullDated = .ok (true, dfFullDated) ∧
    check_blocks_leased_range dfFullBlocks = .ok (true, dfFullBlocks) :=
  ⟨(claim_C9 dfFull).1 true dfFull dfFull_req,
   (claim_C9 dfFull).2.1 false dfFull dfFull_assignment,
   (claim_C9 dfFull).2.2.1 true dfFull dfFull_workload,
   (claim_C9 dfFull).2.2.2.1 0.05 true dfFull dfFull_dist,
   (claim_C9 dfFull).2.2.2.2.1 true dfFullDated dfFull_date,
   (claim_C9 dfFull).2.2.2.2.2 true dfFullBlocks dfFull_blocks⟩

/-- Claim C10: on the empty dataset with all source columns present, the
per-record checks hold vacuously and the distribution check passes with all
three cumulative totals zero; all four return true. -/
theorem claim_C10 :
    check_blocks_leased_range dfEmpty =
      .ok (true, { dfEmpty with total_blocks_leased := some ([] : List ℚ) }) ∧
    check_workload_range dfEmpty = .ok (true, dfEmpty) ∧
    check_workload_assignment dfEmpty = (true, dfEmpty) ∧
    check_equal_distribution dfEmpty 0.05 = .ok (true, dfEmpty) := by
  refine ⟨rfl, rfl, rfl, ?_⟩
  rw [check_equal_distribution_some dfEmpty 0.05 [] [] [] rfl rfl rfl]
  norm_num [List.sum_nil]

end DataSanityCheck
